import Mathlib

/-!
Verification development for the sales-data ELT pipeline
(`src/elt_bigquery.py`).  The file shallowly embeds the synthetic order
generator `generate_and_upload_sales_data` (lines 38-60), the CSV
serialization performed by `pandas.DataFrame.to_csv`, the BigQuery load
schema (lines 28-34) and the Airflow task chain (lines 216-227), and
proves the spec's testable properties about them.

Randomness is modelled by explicit streams of draws: `random.random()`
draws are rationals (the caller supplies them; the library contract is
that each lies in `[0, 1)`), `random.randint` draws are arbitrary
naturals reduced modulo the width of the requested range, and the Faker
name/word sources are arbitrary streams of strings.  Python floats are
abstracted as exact rationals, and `datetime.date` values as their
proleptic Gregorian ordinals (`date.toordinal`, `0001-01-01` being day
1), which determine the calendar fields uniquely.
-/

namespace SalesELT

/-- Streams of random draws consumed by the generator: `fake.name()`
results, `random.random()` unit-interval draws (one per
`random.uniform` call on line 43), raw integer draws backing
`fake.date_between` on line 44, and `fake.word()` results. -/
structure RandStream where
  nameAt : Nat → String
  unitAt : Nat → ℚ
  intAt : Nat → Nat
  wordAt : Nat → String

/-- Model of `random.uniform(a, b)`: `a + (b - a) * u` where `u` is the
underlying `random.random()` draw. -/
def uniform (a b u : ℚ) : ℚ := a + (b - a) * u

/-- Model of Python `round(x, 2)`: round `x` to the nearest multiple of
`1/100` (ties are a single representative of the round-half family; no
claim here depends on the tie direction). -/
def round2 (x : ℚ) : ℚ := ((round (x * 100) : ℤ) : ℚ) / 100

/-- Model of `random.randint(a, b)`: the raw draw `r` reduced into the
inclusive range `[a, b]`. -/
def randint (a b : ℤ) (r : Nat) : ℤ := a + ((r % (b + 1 - a).toNat : Nat) : ℤ)

/-- Model of `fake.date_between(start_date='-30d', end_date='today')`
(line 44): a date ordinal drawn from the inclusive range
`[today - 30, today]`. -/
def fake_date_between_30d (today : ℤ) (r : Nat) : ℤ :=
  randint (today - 30) today r

/-- Column `order_id` (line 41): `[i for i in range(1, num_orders + 1)]`. -/
def order_id_col (n : Nat) : List Nat := List.range' 1 n

/-- Column `customer_name` (line 42): `[fake.name() for _ in range(num_orders)]`. -/
def customer_name_col (n : Nat) (src : RandStream) : List String :=
  (List.range n).map src.nameAt

/-- Column `order_amount` (line 43):
`[round(random.uniform(10.0, 1000.0), 2) for _ in range(num_orders)]`. -/
def order_amount_col (n : Nat) (src : RandStream) : List ℚ :=
  (List.range n).map fun i => round2 (uniform 10 1000 (src.unitAt i))

/-- Column `order_date` (line 44):
`[fake.date_between(start_date='-30d', end_date='today') for _ in range(num_orders)]`. -/
def order_date_col (n : Nat) (today : ℤ) (src : RandStream) : List ℤ :=
  (List.range n).map fun i => fake_date_between_30d today (src.intAt i)

/-- Column `product` (line 45): `[fake.word() for _ in range(num_orders)]`. -/
def product_col (n : Nat) (src : RandStream) : List String :=
  (List.range n).map src.wordAt

/-- One generated sales-order record: a row of the DataFrame built on
line 48, with the five fields of the `data` dict (lines 40-46). -/
structure OrderRecord where
  order_id : Nat
  customer_name : String
  order_amount : ℚ
  order_date : ℤ
  product : String

/-- Rows obtained by aligning the five column lists index by index, the
way `pandas.DataFrame` aligns equal-length columns. -/
def zip5 : List Nat → List String → List ℚ → List ℤ → List String → List OrderRecord
  | a :: as, b :: bs, c :: cs, d :: ds, e :: es =>
      ⟨a, b, c, d, e⟩ :: zip5 as bs cs ds es
  | _, _, _, _, _ => []

/-- Model of `pd.DataFrame(data)` (line 48): succeeds with the row list
when all columns have equal length, and fails (pandas raises
`ValueError`) otherwise. -/
def mkDataFrame (ids : List Nat) (names : List String) (amts : List ℚ)
    (dates : List ℤ) (prods : List String) : Option (List OrderRecord) :=
  if names.length = ids.length ∧ amts.length = ids.length ∧
      dates.length = ids.length ∧ prods.length = ids.length then
    some (zip5 ids names amts dates prods)
  else none

/-- The DataFrame of line 48 built from the five generated columns. -/
def dataFrame (n : Nat) (today : ℤ) (src : RandStream) : Option (List OrderRecord) :=
  mkDataFrame (order_id_col n) (customer_name_col n src) (order_amount_col n src)
    (order_date_col n today src) (product_col n src)

/-- The generated batch, record by record: row `i` (0-based) holds
`order_id = 1 + i` and the `i`-th draw of each random source. -/
def records (n : Nat) (today : ℤ) (src : RandStream) : List OrderRecord :=
  (List.range n).map fun i =>
    ⟨1 + i, src.nameAt i, round2 (uniform 10 1000 (src.unitAt i)),
      fake_date_between_30d today (src.intAt i), src.wordAt i⟩

/-- Decimal digit character for `k % 10`. -/
def digitChar (k : Nat) : Char := Char.ofNat (48 + k % 10)

/-- Fuel-driven most-significant-first decimal digit expansion. -/
def natDigitsAux : Nat → Nat → List Char
  | 0, _ => []
  | fuel + 1, n =>
      if n < 10 then [digitChar n] else natDigitsAux fuel (n / 10) ++ [digitChar n]

/-- Decimal numeral of a natural number, modelling Python `str(int)` as
used by `pandas.to_csv` for the `order_id` column. -/
def natRepr (n : Nat) : String := String.mk (natDigitsAux (n + 1) n)

/-- Zero-padded 2-digit field, modelling C `%02d` as used by
`datetime.date.isoformat` for months and days (Python guarantees the
argument is below 100). -/
def pad2 (n : Nat) : String :=
  if n < 100 then String.mk [digitChar (n / 10), digitChar n] else natRepr n

/-- Zero-padded 4-digit field, modelling C `%04d` as used by
`datetime.date.isoformat` for years (Python guarantees the year is at
most 9999). -/
def pad4 (n : Nat) : String :=
  if n < 10000 then
    String.mk [digitChar (n / 1000), digitChar (n / 100), digitChar (n / 10), digitChar n]
  else natRepr n

/-- Calendar fields of a `datetime.date` value. -/
structure CivilDate where
  year : ℤ
  month : ℤ
  day : ℤ

/-- Calendar fields determined by a proleptic Gregorian ordinal
(`datetime.date.fromordinal`; ordinal 1 is `0001-01-01`), via the
standard era-based civil-from-days computation. -/
def civilFromOrdinal (ordd : ℤ) : CivilDate :=
  let z := ordd + 305
  let era := (if 0 ≤ z then z else z - 146096) / 146097
  let doe := z - era * 146097
  let yoe := (doe - doe / 1460 + doe / 36524 - doe / 146096) / 365
  let y := yoe + era * 400
  let doy := doe - (365 * yoe + yoe / 4 - yoe / 100)
  let mp := (5 * doy + 2) / 153
  let d := doy - (153 * mp + 2) / 5 + 1
  let m := if mp < 10 then mp + 3 else mp - 9
  ⟨if m ≤ 2 then y + 1 else y, m, d⟩

/-- Rendering of a date cell by `to_csv`: Python `str(date)` is
`date.isoformat()`, i.e. `%04d-%02d-%02d` of the calendar fields. -/
def renderDate (ordd : ℤ) : String :=
  pad4 (civilFromOrdinal ordd).year.toNat ++ "-" ++
    pad2 (civilFromOrdinal ordd).month.toNat ++ "-" ++
    pad2 (civilFromOrdinal ordd).day.toNat

/-- Rendering of a nonnegative amount expressed in cents, as Python
`str` renders the float `cents / 100`: minimal digits, trailing
fractional zeros dropped, but always at least one fractional digit. -/
def renderCentsNat (n : Nat) : String :=
  if n % 100 = 0 then natRepr (n / 100) ++ ".0"
  else if n % 100 % 10 = 0 then
    natRepr (n / 100) ++ "." ++ String.mk [digitChar (n % 100 / 10)]
  else natRepr (n / 100) ++ "." ++ String.mk [digitChar (n % 100 / 10), digitChar (n % 100)]

/-- Rendering of an `order_amount` cell by `to_csv` with the default
`float_format=None`: Python `str` of the float.  The stored value is a
multiple of `1/100` (line 43 rounds to 2 places), so its shortest
representation is its value in cents with trailing zeros dropped. -/
def renderAmount (q : ℚ) : String :=
  if round (q * 100) < 0 then "-" ++ renderCentsNat (-(round (q * 100))).toNat
  else renderCentsNat (round (q * 100)).toNat

/-- CSV minimal-quoting test (`csv.QUOTE_MINIMAL`): a field needs quotes
when it contains a comma, a quote, or a line break. -/
def needsQuote (s : String) : Bool :=
  s.data.any fun c => c == ',' || c == '"' || c == '\n' || c == '\r'

/-- CSV minimal quoting of a string field, as the `csv` writer used by
`to_csv` applies it. -/
def csvQuote (s : String) : String :=
  if needsQuote s then "\"" ++ (s.replace "\"" "\"\"") ++ "\"" else s

/-- The five rendered cells of one data row, in the column order of the
`data` dict (lines 40-46), which `pandas` preserves. -/
def rowFields (r : OrderRecord) : List String :=
  [natRepr r.order_id, csvQuote r.customer_name, renderAmount r.order_amount,
    renderDate r.order_date, csvQuote r.product]

/-- One serialized data row: the cells joined by commas. -/
def renderRow (r : OrderRecord) : String := String.intercalate "," (rowFields r)

/-- The CSV column names, in the order of the `data` dict keys. -/
def csv_columns : List String :=
  ["order_id", "customer_name", "order_amount", "order_date", "product"]

/-- The CSV header row written by `to_csv` (`index=False`). -/
def headerLine : String := String.intercalate "," csv_columns

/-- The field lists of the data rows of the serialized batch. -/
def csvRows (n : Nat) (today : ℤ) (src : RandStream) : List (List String) :=
  (records n today src).map rowFields

/-- The lines of the CSV payload produced on lines 48-53: the header
row followed by one row per record. -/
def csvLines (n : Nat) (today : ℤ) (src : RandStream) : List String :=
  headerLine :: (records n today src).map renderRow

/-- The full CSV payload string (`csv_buffer.getvalue()`, line 53):
every line, header included, is terminated by a newline. -/
def csvText (n : Nat) (today : ℤ) (src : RandStream) : String :=
  String.join ((csvLines n today src).map fun l => l ++ "\n")

/-- Observable side effects of the Python function body: the GCS blob
upload of line 59 and the `print` of line 60. -/
inductive Effect where
  | uploadBlob (bucket path payload contentType : String)
  | printed (msg : String)
deriving DecidableEq

/-- Whether an effect is an object-storage upload. -/
def Effect.isUpload : Effect → Bool
  | .uploadBlob _ _ _ _ => true
  | .printed _ => false

/-- Default value of the `num_orders` parameter (line 38); the DAG's
`op_kwargs` also passes 500 explicitly (line 85). -/
def num_orders_default : Nat := 500

/-- Embedding of `generate_and_upload_sales_data` (lines 38-60): build
the five columns, assemble the DataFrame, serialize it to CSV, upload
the payload to the bucket and print a confirmation.  The function
returns `None` in Python, so its observable outcome is its effect
trace; `none` models an uncaught exception. -/
def generate_and_upload_sales_data (bucket_name gcs_path : String) (num_orders : Nat)
    (today : ℤ) (src : RandStream) : Option (List Effect) :=
  (dataFrame num_orders today src).map fun df =>
    let csv_data := String.join ((headerLine :: df.map renderRow).map fun l => l ++ "\n")
    [Effect.uploadBlob bucket_name gcs_path csv_data "text/csv",
      Effect.printed ("Data uploaded to gs://" ++ bucket_name ++ "/" ++ gcs_path)]

/-- One BigQuery load-schema column (lines 28-34). -/
structure SchemaField where
  name : String
  ftype : String
  mode : String

/-- The `schema_fields` list of lines 28-34. -/
def schema_fields : List SchemaField :=
  [⟨"order_id", "INTEGER", "REQUIRED"⟩,
    ⟨"customer_name", "STRING", "REQUIRED"⟩,
    ⟨"order_amount", "FLOAT", "REQUIRED"⟩,
    ⟨"order_date", "DATE", "REQUIRED"⟩,
    ⟨"product", "STRING", "REQUIRED"⟩]

/-- The tasks of the DAG (lines 75-214); `endTask` is the task with
`task_id="end"`. -/
inductive TaskId where
  | start
  | generate_sales_data
  | load_to_bigquery
  | insert_sales_orders
  | call_procedure
  | transform_bigquery_data
  | transform_bigquery_data_2
  | endTask
deriving DecidableEq

/-- The dependency edges declared by the `>>` chain on lines 216-227. -/
def dag_edges : List (TaskId × TaskId) :=
  [(.start, .generate_sales_data),
    (.generate_sales_data, .load_to_bigquery),
    (.load_to_bigquery, .insert_sales_orders),
    (.insert_sales_orders, .call_procedure),
    (.call_procedure, .transform_bigquery_data),
    (.transform_bigquery_data, .transform_bigquery_data_2),
    (.transform_bigquery_data_2, .endTask)]

/-- An execution trace (a linear order on task runs) respects the DAG
when every declared upstream task occurs strictly before its
downstream task. -/
def respectsEdges (ordr : List TaskId) : Prop :=
  ∀ e ∈ dag_edges, List.indexOf e.1 ordr < List.indexOf e.2 ordr

/-- The only topological order of the chain, used as a concrete trace. -/
def chainOrder : List TaskId :=
  [.start, .generate_sales_data, .load_to_bigquery, .insert_sales_orders,
    .call_procedure, .transform_bigquery_data, .transform_bigquery_data_2, .endTask]

/-- A random stream with fixed, benign draws, for concrete runs. -/
def srcSimple : RandStream :=
  ⟨fun _ => "Jane Doe", fun _ => 0, fun _ => 0, fun _ => "pen"⟩

/-- A random stream whose unit draw makes `uniform 10 1000` land exactly
on `150`, so the rounded amount is the whole number `150.00`. -/
def srcWhole : RandStream :=
  ⟨fun _ => "Jane Doe", fun _ => 14 / 99, fun _ => 0, fun _ => "pen"⟩

/-- Number of characters after the first dot of a string, if any. -/
def fracDigits (s : String) : Option Nat :=
  match s.data.dropWhile (fun c => c != '.') with
  | [] => none
  | _ :: rest => some rest.length

/-- Whether a string has a fractional part of exactly two digits. -/
def hasExactlyTwoDecimals (s : String) : Bool := fracDigits s == some 2

/-- Whether a string has the shape `YYYY-MM-DD`: ten characters, digits
everywhere except dashes at positions 4 and 7. -/
def isDateFormat (s : String) : Bool :=
  match s.data with
  | [a, b, c, d, h1, e, f, h2, g, h] =>
      a.isDigit && b.isDigit && c.isDigit && d.isDigit && h1 == '-' &&
        e.isDigit && f.isDigit && h2 == '-' && g.isDigit && h.isDigit
  | _ => false

/-! Helper lemmas shared by the claim theorems. -/

theorem zip5_map (l : List Nat) (f1 : Nat → Nat) (f2 : Nat → String) (f3 : Nat → ℚ)
    (f4 : Nat → ℤ) (f5 : Nat → String) :
    zip5 (l.map f1) (l.map f2) (l.map f3) (l.map f4) (l.map f5) =
      l.map fun i => ⟨f1 i, f2 i, f3 i, f4 i, f5 i⟩ := by
  induction l with
  | nil => rfl
  | cons a t ih => simp [zip5, ih]

theorem dataFrame_eq_records (n : Nat) (today : ℤ) (src : RandStream) :
    dataFrame n today src = some (records n today src) := by
  unfold dataFrame mkDataFrame
  rw [if_pos]
  · unfold order_id_col customer_name_col order_amount_col order_date_col product_col records
    rw [List.range'_eq_map_range]
    exact congrArg some (zip5_map (List.range n) _ _ _ _ _)
  · unfold order_id_col customer_name_col order_amount_col order_date_col product_col
    simp

theorem records_length (n : Nat) (today : ℤ) (src : RandStream) :
    (records n today src).length = n := by
  simp [records]

theorem records_getElem? (n : Nat) (today : ℤ) (src : RandStream) (k : Nat) (hk : k < n) :
    (records n today src)[k]? =
      some ⟨1 + k, src.nameAt k, round2 (uniform 10 1000 (src.unitAt k)),
        fake_date_between_30d today (src.intAt k), src.wordAt k⟩ := by
  simp [records, List.getElem?_map, List.getElem?_range hk]

theorem mem_records (n : Nat) (today : ℤ) (src : RandStream) (r : OrderRecord)
    (hr : r ∈ records n today src) :
    ∃ i, i < n ∧ r = ⟨1 + i, src.nameAt i, round2 (uniform 10 1000 (src.unitAt i)),
      fake_date_between_30d today (src.intAt i), src.wordAt i⟩ := by
  simp only [records, List.mem_map, List.mem_range] at hr
  obtain ⟨i, hi, rfl⟩ := hr
  exact ⟨i, hi, rfl⟩

theorem date_between_bounds (today : ℤ) (r : Nat) :
    today - 30 ≤ fake_date_between_30d today r ∧ fake_date_between_30d today r ≤ today := by
  unfold fake_date_between_30d randint
  have h31 : today + 1 - (today - 30) = (31 : ℤ) := by ring
  rw [h31]
  have hm : r % (31 : ℤ).toNat < 31 := Nat.mod_lt _ (by omega)
  omega

theorem amount_bounds (u : ℚ) (h0 : 0 ≤ u) (h1 : u < 1) :
    10 ≤ round2 (uniform 10 1000 u) ∧ round2 (uniform 10 1000 u) ≤ 1000 ∧
      (100 * round2 (uniform 10 1000 u)).den = 1 := by
  have hx0 : (10 : ℚ) ≤ uniform 10 1000 u := by unfold uniform; nlinarith
  have hx1 : uniform 10 1000 u < 1000 := by unfold uniform; nlinarith
  set x := uniform 10 1000 u with hx
  have hc0 : (1000 : ℤ) ≤ round (x * 100) := by
    rw [round_eq]
    refine Int.le_floor.2 ?_
    push_cast
    nlinarith
  have hc1 : round (x * 100) < 100001 := by
    rw [round_eq]
    refine Int.floor_lt.2 ?_
    push_cast
    nlinarith
  refine ⟨?_, ?_, ?_⟩
  · unfold round2
    rw [le_div_iff₀ (by norm_num : (0 : ℚ) < 100)]
    have hcast : ((1000 : ℤ) : ℚ) ≤ ((round (x * 100) : ℤ) : ℚ) := by exact_mod_cast hc0
    push_cast at hcast ⊢
    linarith
  · unfold round2
    rw [div_le_iff₀ (by norm_num : (0 : ℚ) < 100)]
    have hle : round (x * 100) ≤ 100000 := by omega
    have hcast : ((round (x * 100) : ℤ) : ℚ) ≤ ((100000 : ℤ) : ℚ) := by exact_mod_cast hle
    push_cast at hcast ⊢
    linarith
  · unfold round2
    have h100 : (100 : ℚ) * (((round (x * 100) : ℤ) : ℚ) / 100) = ((round (x * 100) : ℤ) : ℚ) := by
      field_simp
    rw [h100, Rat.den_intCast]

theorem isDigit_digitChar (k : Nat) : (digitChar k).isDigit = true := by
  unfold digitChar
  obtain ⟨m, hm, hlt⟩ : ∃ m, k % 10 = m ∧ m < 10 := ⟨k % 10, rfl, Nat.mod_lt _ (by omega)⟩
  rw [hm]
  interval_cases m <;> decide

theorem ne_dot_of_isDigit (c : Char) (h : c.isDigit = true) : (c != '.') = true := by
  rw [bne_iff_ne]
  intro he
  subst he
  exact absurd h (by decide)

theorem natDigitsAux_digits (fuel : Nat) :
    ∀ n c, c ∈ natDigitsAux fuel n → c.isDigit = true := by
  induction fuel with
  | zero => intro n c hc; simp [natDigitsAux] at hc
  | succ fuel ih =>
    intro n c hc
    unfold natDigitsAux at hc
    split at hc
    · simp at hc
      subst hc
      exact isDigit_digitChar n
    · rw [List.mem_append] at hc
      rcases hc with hc | hc
      · exact ih _ c hc
      · simp at hc
        subst hc
        exact isDigit_digitChar n

theorem natRepr_digits (n : Nat) : ∀ c ∈ (natRepr n).data, c.isDigit = true := by
  intro c hc
  exact natDigitsAux_digits (n + 1) n c hc

theorem natDigitsAux_ne_nil (fuel n : Nat) : natDigitsAux (fuel + 1) n ≠ [] := by
  unfold natDigitsAux
  split <;> simp

theorem natRepr_ne_empty (n : Nat) : natRepr n ≠ "" := by
  intro h
  have h2 : natDigitsAux (n + 1) n = [] := congrArg String.data h
  exact natDigitsAux_ne_nil n n h2

theorem append_ne_empty_left (s t : String) (h : s ≠ "") : s ++ t ≠ "" := by
  intro he
  have hd : s.data ++ t.data = [] := by
    have := congrArg String.data he
    rwa [String.data_append] at this
  exact h (String.ext (List.append_eq_nil.mp hd).1)

theorem mk_cons_ne_empty (c : Char) (l : List Char) : String.mk (c :: l) ≠ "" := by
  intro h
  have hd : (c :: l : List Char) = [] := congrArg String.data h
  exact absurd hd (by simp)

theorem pad4_ne_empty (n : Nat) : pad4 n ≠ "" := by
  unfold pad4
  split
  · exact mk_cons_ne_empty _ _
  · exact natRepr_ne_empty n

theorem csvQuote_ne_empty (s : String) (h : s ≠ "") : csvQuote s ≠ "" := by
  unfold csvQuote
  split
  · exact append_ne_empty_left _ _ (append_ne_empty_left _ _ (by decide))
  · exact h

theorem renderCentsNat_ne_empty (n : Nat) : renderCentsNat n ≠ "" := by
  unfold renderCentsNat
  split_ifs <;>
    first
      | exact append_ne_empty_left _ _ (natRepr_ne_empty _)
      | exact append_ne_empty_left _ _ (append_ne_empty_left _ _ (natRepr_ne_empty _))

theorem renderAmount_ne_empty (q : ℚ) : renderAmount q ≠ "" := by
  unfold renderAmount
  split
  · exact append_ne_empty_left _ _ (by decide)
  · exact renderCentsNat_ne_empty _

theorem renderDate_ne_empty (z : ℤ) : renderDate z ≠ "" := by
  unfold renderDate
  exact append_ne_empty_left _ _
    (append_ne_empty_left _ _ (append_ne_empty_left _ _ (append_ne_empty_left _ _
      (pad4_ne_empty _))))

theorem civil_bounds (ordd : ℤ) (h1 : 1 ≤ ordd) (h2 : ordd ≤ 3652059) :
    (1 ≤ (civilFromOrdinal ordd).year ∧ (civilFromOrdinal ordd).year ≤ 9999) ∧
    (1 ≤ (civilFromOrdinal ordd).month ∧ (civilFromOrdinal ordd).month ≤ 12) ∧
    (1 ≤ (civilFromOrdinal ordd).day ∧ (civilFromOrdinal ordd).day ≤ 31) := by
  simp only [civilFromOrdinal]
  split_ifs <;> simp_all <;> omega

theorem isDateFormat_renderDate (z : ℤ) (h1 : 1 ≤ z) (h2 : z ≤ 3652059) :
    isDateFormat (renderDate z) = true := by
  obtain ⟨⟨hy1, hy2⟩, ⟨hm1, hm2⟩, ⟨hd1, hd2⟩⟩ := civil_bounds z h1 h2
  have hy : (civilFromOrdinal z).year.toNat < 10000 := by omega
  have hm : (civilFromOrdinal z).month.toNat < 100 := by omega
  have hd : (civilFromOrdinal z).day.toNat < 100 := by omega
  unfold renderDate pad4 pad2
  rw [if_pos hy, if_pos hm, if_pos hd]
  have hdash : ("-" : String).data = ['-'] := rfl
  unfold isDateFormat
  simp [String.data_append, hdash, isDigit_digitChar]

theorem dropWhile_all_append (l1 l2 : List Char) (p : Char → Bool)
    (h : ∀ c ∈ l1, p c = true) :
    (l1 ++ l2).dropWhile p = l2.dropWhile p := by
  rw [List.dropWhile_append]
  have hnil : l1.dropWhile p = [] := List.dropWhile_eq_nil_iff.mpr h
  simp [hnil]

theorem fracDigits_append (intpart : String) (frac : List Char)
    (hint : ∀ c ∈ intpart.data, (c != '.') = true) :
    fracDigits (intpart ++ String.mk ('.' :: frac)) = some frac.length := by
  unfold fracDigits
  rw [String.data_append]
  have hmk : (String.mk ('.' :: frac)).data = '.' :: frac := rfl
  rw [hmk, dropWhile_all_append _ _ _ hint, List.dropWhile_cons]
  simp

theorem fracDigits_renderCentsNat (n : Nat) :
    fracDigits (renderCentsNat n) = some 1 ∨ fracDigits (renderCentsNat n) = some 2 := by
  have hint : ∀ c ∈ (natRepr (n / 100)).data, (c != '.') = true :=
    fun c hc => ne_dot_of_isDigit c (natRepr_digits _ c hc)
  unfold renderCentsNat
  split_ifs with hf1 hf2
  · left
    have he : natRepr (n / 100) ++ ".0" = natRepr (n / 100) ++ String.mk ('.' :: ['0']) := rfl
    rw [he, fracDigits_append _ _ hint]
    rfl
  · left
    have he : natRepr (n / 100) ++ "." ++ String.mk [digitChar (n % 100 / 10)] =
        natRepr (n / 100) ++ String.mk ('.' :: [digitChar (n % 100 / 10)]) := by
      apply String.ext
      simp [String.data_append]
    rw [he, fracDigits_append _ _ hint]
    rfl
  · right
    have he : natRepr (n / 100) ++ "." ++
          String.mk [digitChar (n % 100 / 10), digitChar (n % 100)] =
        natRepr (n / 100) ++
          String.mk ('.' :: [digitChar (n % 100 / 10), digitChar (n % 100)]) := by
      apply String.ext
      simp [String.data_append]
    rw [he, fracDigits_append _ _ hint]
    rfl

theorem fracDigits_renderAmount (q : ℚ) (h : 0 ≤ q) :
    fracDigits (renderAmount q) = some 1 ∨ fracDigits (renderAmount q) = some 2 := by
  have hc : ¬ round (q * 100) < 0 := by
    rw [round_eq]
    have hfl : (0 : ℤ) ≤ ⌊q * 100 + 1 / 2⌋ := Int.le_floor.2 (by push_cast; nlinarith)
    omega
  unfold renderAmount
  rw [if_neg hc]
  exact fracDigits_renderCentsNat _

/-! Claim theorems. -/

/-- C1: for every `N ≥ 0` the generated payload is exactly one header
row followed by exactly `N` data rows; for `N = 0` it is the header
line alone. -/
theorem generator_line_count (n : Nat) (today : ℤ) (src : RandStream) :
    (csvLines n today src).length = n + 1 ∧
    (csvLines n today src).head? = some headerLine ∧
    csvLines 0 today src = [headerLine] := by
  refine ⟨?_, rfl, ?_⟩
  · simp [csvLines, records]
  · simp [csvLines, records]

/-- C2: the `order_id` column is exactly the duplicate-free sequence
`1, 2, ..., N`, and the `k`-th data row of the CSV (1-based) has first
field the numeral of `k`. -/
theorem order_ids_sequence (n : Nat) (today : ℤ) (src : RandStream) (k : Nat)
    (_hn : 1 ≤ n) (hk : k < n) :
    (order_id_col n).length = n ∧ (order_id_col n).Nodup ∧
    (order_id_col n).getD k 0 = k + 1 ∧
    (csvLines n today src).length = n + 1 ∧
    ((csvRows n today src).getD k []).getD 0 "" = natRepr (k + 1) := by
  refine ⟨by simp [order_id_col], List.nodup_range' 1 n, ?_, by simp [csvLines, records], ?_⟩
  · rw [order_id_col, List.getD_eq_getElem?_getD, List.getElem?_range' 1 1 hk]
    simp [Nat.add_comm]
  · rw [csvRows, List.getD_eq_getElem?_getD (List.map rowFields (records n today src)) k [],
      List.getElem?_map, records_getElem? n today src k hk]
    simp [rowFields, Nat.add_comm]

/-- C2 witness: the `N = 3` scenario of the spec, at a concrete stream;
line 2's first field is `1` and line 4's first field is `3`. -/
theorem order_ids_sequence_witness :
    ((order_id_col 3).length = 3 ∧ (order_id_col 3).Nodup ∧
      (order_id_col 3).getD 0 0 = 1 ∧
      (csvLines 3 739203 srcSimple).length = 4 ∧
      ((csvRows 3 739203 srcSimple).getD 0 []).getD 0 "" = natRepr 1) ∧
    ((order_id_col 3).getD 2 0 = 3 ∧
      ((csvRows 3 739203 srcSimple).getD 2 []).getD 0 "" = natRepr 3) := by
  refine ⟨order_ids_sequence 3 739203 srcSimple 0 (by decide) (by decide), ?_⟩
  have h := order_ids_sequence 3 739203 srcSimple 2 (by decide) (by decide)
  exact ⟨h.2.2.1, h.2.2.2.2⟩

/-- C4: every generated `order_date` lies in the inclusive window from
30 days before the current date through the current date. -/
theorem order_dates_window (n : Nat) (today : ℤ) (src : RandStream) :
    ∀ d ∈ order_date_col n today src, today - 30 ≤ d ∧ d ≤ today := by
  intro d hd
  simp only [order_date_col, List.mem_map, List.mem_range] at hd
  obtain ⟨i, _, rfl⟩ := hd
  unfold fake_date_between_30d randint
  have h31 : today + 1 - (today - 30) = (31 : ℤ) := by ring
  rw [h31]
  have hm : src.intAt i % (31 : ℤ).toNat < 31 := Nat.mod_lt _ (by omega)
  omega

/-- C3: every generated `order_amount` lies in `[10.00, 1000.00]` and is
a multiple of `1/100` (at most 2 decimal digits), the amount being a
uniform draw from `[10.0, 1000.0)` rounded to 2 places. -/
theorem order_amounts_range (n : Nat) (src : RandStream)
    (h : ∀ i, 0 ≤ src.unitAt i ∧ src.unitAt i < 1) :
    ∀ q ∈ order_amount_col n src, 10 ≤ q ∧ q ≤ 1000 ∧ (100 * q).den = 1 := by
  intro q hq
  simp only [order_amount_col, List.mem_map, List.mem_range] at hq
  obtain ⟨i, _, rfl⟩ := hq
  exact amount_bounds (src.unitAt i) (h i).1 (h i).2

/-- C3 witness: the amount bounds at a concrete stream of draws. -/
theorem order_amounts_range_witness :
    (∀ i, 0 ≤ srcSimple.unitAt i ∧ srcSimple.unitAt i < 1) ∧
    ∀ q ∈ order_amount_col 1 srcSimple, 10 ≤ q ∧ q ≤ 1000 ∧ (100 * q).den = 1 := by
  have h : ∀ i, 0 ≤ srcSimple.unitAt i ∧ srcSimple.unitAt i < 1 := by
    intro i
    constructor <;> norm_num [srcSimple]
  exact ⟨h, order_amounts_range 1 srcSimple h⟩

/-- C7: the generation pipeline is total for every `N ≥ 0`: the
DataFrame assembly succeeds (equal column lengths) and the whole
function produces a result rather than an error. -/
theorem generator_total (bucket path : String) (n : Nat) (today : ℤ) (src : RandStream) :
    dataFrame n today src = some (records n today src) ∧
    (generate_and_upload_sales_data bucket path n today src).isSome = true := by
  refine ⟨dataFrame_eq_records n today src, ?_⟩
  unfold generate_and_upload_sales_data
  rw [dataFrame_eq_records]
  rfl

/-- C6 counterexample: already at `N = 0` the function's effect trace
contains an object-storage upload, so the generator does perform I/O of
its own rather than leaving the handoff to an external collaborator. -/
theorem generator_performs_upload :
    ((generate_and_upload_sales_data "bucket" "path.csv" 0 739203 srcSimple).getD []).any
      Effect.isUpload = true := by
  rw [generate_and_upload_sales_data, dataFrame_eq_records]
  rfl

/-- C6 amended: the function returns no payload; its effects are
exactly the upload of the serialized CSV to the configured bucket and
path followed by a confirmation print, the upload being performed by
the function itself. -/
theorem generator_effects (bucket path : String) (n : Nat) (today : ℤ) (src : RandStream) :
    generate_and_upload_sales_data bucket path n today src =
      some [Effect.uploadBlob bucket path (csvText n today src) "text/csv",
        Effect.printed ("Data uploaded to gs://" ++ bucket ++ "/" ++ path)] := by
  unfold generate_and_upload_sales_data
  rw [dataFrame_eq_records]
  rfl

/-- C8: the header lists the five column names in the order of the
`data` dict, the default record count is 500, there is one data row per
record, and each data row renders the record's five fields in the same
order, comma-separated. -/
theorem csv_header_and_order (n : Nat) (today : ℤ) (src : RandStream) :
    headerLine = "order_id,customer_name,order_amount,order_date,product" ∧
    num_orders_default = 500 ∧
    (csvRows n today src).length = n ∧
    ∀ r ∈ records n today src,
      rowFields r = [natRepr r.order_id, csvQuote r.customer_name,
        renderAmount r.order_amount, renderDate r.order_date, csvQuote r.product] ∧
      renderRow r = String.intercalate "," (rowFields r) := by
  exact ⟨by decide, rfl, by simp [csvRows, records], fun r _ => ⟨rfl, rfl⟩⟩

/-- C9: in any execution trace that respects the DAG's declared
dependencies, the generate-and-upload task runs before the warehouse
load, which runs before the procedure creation, the procedure call and
the two aggregation queries, in that order. -/
theorem dag_chain_order (ordr : List TaskId) (h : respectsEdges ordr) :
    List.indexOf TaskId.generate_sales_data ordr < List.indexOf TaskId.load_to_bigquery ordr ∧
    List.indexOf TaskId.load_to_bigquery ordr < List.indexOf TaskId.insert_sales_orders ordr ∧
    List.indexOf TaskId.insert_sales_orders ordr < List.indexOf TaskId.call_procedure ordr ∧
    List.indexOf TaskId.call_procedure ordr < List.indexOf TaskId.transform_bigquery_data ordr ∧
    List.indexOf TaskId.transform_bigquery_data ordr <
      List.indexOf TaskId.transform_bigquery_data_2 ordr := by
  refine ⟨h (TaskId.generate_sales_data, TaskId.load_to_bigquery) ?_,
    h (TaskId.load_to_bigquery, TaskId.insert_sales_orders) ?_,
    h (TaskId.insert_sales_orders, TaskId.call_procedure) ?_,
    h (TaskId.call_procedure, TaskId.transform_bigquery_data) ?_,
    h (TaskId.transform_bigquery_data, TaskId.transform_bigquery_data_2) ?_⟩ <;>
      simp [dag_edges]

/-- C9 witness: the concrete chain order respects the edges and is
ordered as claimed. -/
theorem dag_chain_order_witness :
    respectsEdges chainOrder ∧
    (List.indexOf TaskId.generate_sales_data chainOrder <
        List.indexOf TaskId.load_to_bigquery chainOrder ∧
      List.indexOf TaskId.load_to_bigquery chainOrder <
        List.indexOf TaskId.insert_sales_orders chainOrder ∧
      List.indexOf TaskId.insert_sales_orders chainOrder <
        List.indexOf TaskId.call_procedure chainOrder ∧
      List.indexOf TaskId.call_procedure chainOrder <
        List.indexOf TaskId.transform_bigquery_data chainOrder ∧
      List.indexOf TaskId.transform_bigquery_data chainOrder <
        List.indexOf TaskId.transform_bigquery_data_2 chainOrder) := by
  have h : respectsEdges chainOrder := by unfold respectsEdges; decide
  exact ⟨h, dag_chain_order chainOrder h⟩

/-- C4 witness: the date window bounds at a concrete run where the
single generated date is 30 days before today. -/
theorem order_dates_window_witness :
    ((739173 : ℤ) ∈ order_date_col 1 739203 srcSimple) ∧
    ((739203 : ℤ) - 30 ≤ 739173 ∧ (739173 : ℤ) ≤ 739203) := by
  have hm : (739173 : ℤ) ∈ order_date_col 1 739203 srcSimple := by decide
  exact ⟨hm, order_dates_window 1 739203 srcSimple 739173 hm⟩

/-- C8 witness: the header and field-order facts instantiated at a
concrete run. -/
theorem csv_header_and_order_witness :
    headerLine = "order_id,customer_name,order_amount,order_date,product" ∧
    num_orders_default = 500 ∧
    (csvRows 1 739203 srcSimple).length = 1 ∧
    ∀ r ∈ records 1 739203 srcSimple,
      rowFields r = [natRepr r.order_id, csvQuote r.customer_name,
        renderAmount r.order_amount, renderDate r.order_date, csvQuote r.product] ∧
      renderRow r = String.intercalate "," (rowFields r) :=
  csv_header_and_order 1 739203 srcSimple

/-- C5 counterexample: a whole-number amount is rendered as `150.0`,
with one decimal digit rather than exactly two, so the claim that every
amount field carries exactly 2 decimal places fails. -/
theorem csv_amount_field_one_decimal :
    ((csvRows 1 739203 srcWhole).getD 0 []).getD 2 "" = "150.0" ∧
    hasExactlyTwoDecimals "150.0" = false := by
  constructor
  · have hq : round2 (uniform 10 1000 ((14 : ℚ) / 99)) = 150 := by
      unfold uniform round2
      norm_num [round_eq]
    have hr : renderAmount (150 : ℚ) = "150.0" := by
      unfold renderAmount
      have hc : round ((150 : ℚ) * 100) = 15000 := by norm_num [round_eq]
      rw [hc, if_neg (by decide)]
      decide
    simp [csvRows, records, srcWhole, rowFields, hq, hr]
  · decide

/-- C5 amended: in every rendered data row, the `order_date` field has
the `YYYY-MM-DD` shape, and the `order_amount` field has one or two
decimal digits (Python float repr drops a trailing zero, so exactly two
is not guaranteed). -/
theorem csv_cell_formats (n : Nat) (today : ℤ) (src : RandStream)
    (ht1 : 31 ≤ today) (ht2 : today ≤ 3652059)
    (hu : ∀ i, 0 ≤ src.unitAt i ∧ src.unitAt i < 1) :
    ∀ r ∈ records n today src,
      isDateFormat ((rowFields r).getD 3 "") = true ∧
      (fracDigits ((rowFields r).getD 2 "") = some 1 ∨
        fracDigits ((rowFields r).getD 2 "") = some 2) := by
  intro r hr
  obtain ⟨i, hi, rfl⟩ := mem_records n today src r hr
  have hdate := date_between_bounds today (src.intAt i)
  refine ⟨?_, ?_⟩
  · show isDateFormat (renderDate (fake_date_between_30d today (src.intAt i))) = true
    exact isDateFormat_renderDate _ (by omega) (by omega)
  · show fracDigits (renderAmount (round2 (uniform 10 1000 (src.unitAt i)))) = some 1 ∨
      fracDigits (renderAmount (round2 (uniform 10 1000 (src.unitAt i)))) = some 2
    have hq := amount_bounds (src.unitAt i) (hu i).1 (hu i).2
    exact fracDigits_renderAmount _ (by linarith [hq.1])

/-- C5 amended witness: the cell formats at a concrete run. -/
theorem csv_cell_formats_witness :
    (31 ≤ (739203 : ℤ)) ∧ ((739203 : ℤ) ≤ 3652059) ∧
    (∀ i, 0 ≤ srcSimple.unitAt i ∧ srcSimple.unitAt i < 1) ∧
    ∀ r ∈ records 1 739203 srcSimple,
      isDateFormat ((rowFields r).getD 3 "") = true ∧
      (fracDigits ((rowFields r).getD 2 "") = some 1 ∨
        fracDigits ((rowFields r).getD 2 "") = some 2) := by
  have hu : ∀ i, 0 ≤ srcSimple.unitAt i ∧ srcSimple.unitAt i < 1 := by
    intro i
    constructor <;> norm_num [srcSimple]
  exact ⟨by decide, by decide, hu,
    csv_cell_formats 1 739203 srcSimple (by decide) (by decide) hu⟩

/-- C10: each of the five column lists has length `N`, matching the
five-column all-REQUIRED load schema, and every data row consists of
exactly five non-empty rendered fields. -/
theorem column_lengths_row_arity (n : Nat) (today : ℤ) (src : RandStream)
    (hsrc : ∀ i, src.nameAt i ≠ "" ∧ src.wordAt i ≠ "") :
    (order_id_col n).length = n ∧ (customer_name_col n src).length = n ∧
    (order_amount_col n src).length = n ∧ (order_date_col n today src).length = n ∧
    (product_col n src).length = n ∧ schema_fields.length = 5 ∧
    ∀ r ∈ records n today src, (rowFields r).length = 5 ∧ ∀ f ∈ rowFields r, f ≠ "" := by
  refine ⟨by simp [order_id_col], by simp [customer_name_col], by simp [order_amount_col],
    by simp [order_date_col], by simp [product_col], rfl, ?_⟩
  intro r hr
  obtain ⟨i, hi, rfl⟩ := mem_records n today src r hr
  refine ⟨rfl, ?_⟩
  intro f hf
  simp only [rowFields, List.mem_cons, List.not_mem_nil, or_false] at hf
  rcases hf with rfl | rfl | rfl | rfl | rfl
  · exact natRepr_ne_empty _
  · exact csvQuote_ne_empty _ (hsrc i).1
  · exact renderAmount_ne_empty _
  · exact renderDate_ne_empty _
  · exact csvQuote_ne_empty _ (hsrc i).2

/-- C10 witness: the column lengths and row arity at a concrete run. -/
theorem column_lengths_row_arity_witness :
    (∀ i, srcSimple.nameAt i ≠ "" ∧ srcSimple.wordAt i ≠ "") ∧
    ((order_id_col 2).length = 2 ∧ (customer_name_col 2 srcSimple).length = 2 ∧
      (order_amount_col 2 srcSimple).length = 2 ∧
      (order_date_col 2 739203 srcSimple).length = 2 ∧
      (product_col 2 srcSimple).length = 2 ∧ schema_fields.length = 5 ∧
      ∀ r ∈ records 2 739203 srcSimple,
        (rowFields r).length = 5 ∧ ∀ f ∈ rowFields r, f ≠ "") := by
  have hs : ∀ i, srcSimple.nameAt i ≠ "" ∧ srcSimple.wordAt i ≠ "" := by
    intro i
    refine ⟨?_, ?_⟩
    · show ("Jane Doe" : String) ≠ ""
      decide
    · show ("pen" : String) ≠ ""
      decide
  exact ⟨hs, column_lengths_row_arity 2 739203 srcSimple hs⟩

end SalesELT
